import Mathlib

/-
Verification of the core of rust-ai-player: the behavior tree
(src/ai/behavior_tree.py) and the decision engine (src/ai/decision_engine.py).
The Python classes are shallowly embedded: node objects become an inductive
tree carrying their mutable fields (status, cursor), and method calls that
mutate self become functions returning the updated node.
-/

namespace RustAI

/-- NodeStatus from behavior_tree.py: possible states of a behavior tree node. -/
inductive NodeStatus where
  | success
  | failure
  | running
deriving DecidableEq, Repr

mutual
/--
Behavior tree nodes, embedding the BehaviorNode class hierarchy.
Every node carries name and status (BehaviorNode fields, status initialized
to FAILURE). ActionNode carries its injected action, ConditionNode its
predicate; SequenceNode and SelectorNode carry ordered children and the
current_child_index cursor (initialized to 0); ParallelNode carries children
and success_threshold. Children are a nested list, given as a mutually
inductive type so that all operations are structural recursions.
-/
inductive BNode (Ctx : Type) where
  | action (name : String) (status : NodeStatus) (act : Ctx → NodeStatus)
  | condition (name : String) (status : NodeStatus) (cond : Ctx → Bool)
  | seqNode (name : String) (status : NodeStatus) (children : BNodeList Ctx)
      (current_child_index : Nat)
  | selNode (name : String) (status : NodeStatus) (children : BNodeList Ctx)
      (current_child_index : Nat)
  | parNode (name : String) (status : NodeStatus) (children : BNodeList Ctx)
      (success_threshold : Int)

/-- Ordered children of a composite node (the Python list of BehaviorNode). -/
inductive BNodeList (Ctx : Type) where
  | nil
  | cons (head : BNode Ctx) (tail : BNodeList Ctx)
end

/-- Number of children (len(self.children)). -/
def BNodeList.length {Ctx : Type} : BNodeList Ctx → Nat
  | .nil => 0
  | .cons _ t => t.length + 1

/-- Status field of a node (self.status, the last observed status). -/
def statusOf {Ctx : Type} : BNode Ctx → NodeStatus
  | .action _ st _ => st
  | .condition _ st _ => st
  | .seqNode _ st _ _ => st
  | .selNode _ st _ _ => st
  | .parNode _ st _ _ => st

/-- Cursor field of a Sequence or Selector node (current_child_index); 0 for
node kinds that have no cursor. -/
def cursorOf {Ctx : Type} : BNode Ctx → Nat
  | .seqNode _ _ _ k => k
  | .selNode _ _ _ k => k
  | _ => 0

/-- Children of a composite node; nil for leaves. -/
def childrenOf {Ctx : Type} : BNode Ctx → BNodeList Ctx
  | .seqNode _ _ cs _ => cs
  | .selNode _ _ cs _ => cs
  | .parNode _ _ cs _ => cs
  | _ => .nil

mutual
/--
Embedding of the tick methods of behavior_tree.py. Python tick mutates self
and returns a status; here it returns the updated node paired with the
status. ActionNode.tick runs the action and stores its status;
ConditionNode.tick maps the predicate to SUCCESS or FAILURE; the composite
ticks delegate to the loop helpers below, storing the resulting status (and,
for Sequence and Selector, the resulting current_child_index).
-/
def tick {Ctx : Type} : BNode Ctx → Ctx → BNode Ctx × NodeStatus
  | .action n _ a, c =>
      let s := a c
      (.action n s a, s)
  | .condition n _ p, c =>
      let s := if p c then NodeStatus.success else NodeStatus.failure
      (.condition n s p, s)
  | .seqNode n _ cs cur, c =>
      let r := seqGo cs cur c
      (.seqNode n r.2.2 r.1 r.2.1, r.2.2)
  | .selNode n _ cs cur, c =>
      let r := selGo cs cur c
      (.selNode n r.2.2 r.1 r.2.1, r.2.2)
  | .parNode n _ cs th, c =>
      let r := parGo cs c
      let s :=
        if th ≤ (r.2.1 : Int) then NodeStatus.success
        else if ((cs.length : Int) - (r.2.2.1 : Int)) < th then NodeStatus.failure
        else NodeStatus.running
      (.parNode n s r.1 th, s)

/--
The while loop of SequenceNode.tick, lines 115-134. The loop walks
children[current_child_index:]; here the cursor counts down while the
untouched leading children are preserved. Returns the updated children,
the new cursor value, and the resulting status: a failing child resets the
cursor to 0 and yields FAILURE; a running child keeps the cursor at that
child and yields RUNNING; successes advance; exhaustion resets the cursor
to 0 and yields SUCCESS.
-/
def seqGo {Ctx : Type} : BNodeList Ctx → Nat → Ctx → BNodeList Ctx × Nat × NodeStatus
  | .nil, _, _ => (.nil, 0, .success)
  | .cons b rest, 0, c =>
      let p := tick b c
      match p.2 with
      | .failure => (.cons p.1 rest, 0, .failure)
      | .running => (.cons p.1 rest, 0, .running)
      | .success =>
          let r := seqGo rest 0 c
          (.cons p.1 r.1,
           (match r.2.2 with | .running => r.2.1 + 1 | _ => 0),
           r.2.2)
  | .cons b rest, k + 1, c =>
      let r := seqGo rest k c
      (.cons b r.1,
       (match r.2.2 with | .running => r.2.1 + 1 | _ => 0),
       r.2.2)

/--
The while loop of SelectorNode.tick, lines 169-188: symmetric to seqGo with
SUCCESS and FAILURE swapped. A succeeding child resets the cursor to 0 and
yields SUCCESS; a running child pauses there; failures advance; exhaustion
resets the cursor to 0 and yields FAILURE.
-/
def selGo {Ctx : Type} : BNodeList Ctx → Nat → Ctx → BNodeList Ctx × Nat × NodeStatus
  | .nil, _, _ => (.nil, 0, .failure)
  | .cons b rest, 0, c =>
      let p := tick b c
      match p.2 with
      | .success => (.cons p.1 rest, 0, .success)
      | .running => (.cons p.1 rest, 0, .running)
      | .failure =>
          let r := selGo rest 0 c
          (.cons p.1 r.1,
           (match r.2.2 with | .running => r.2.1 + 1 | _ => 0),
           r.2.2)
  | .cons b rest, k + 1, c =>
      let r := selGo rest k c
      (.cons b r.1,
       (match r.2.2 with | .running => r.2.1 + 1 | _ => 0),
       r.2.2)

/--
The for loop of ParallelNode.tick, lines 229-237: ticks every child
unconditionally in order and tallies. Returns the updated children and the
triple (success_count, failure_count, running_count).
-/
def parGo {Ctx : Type} : BNodeList Ctx → Ctx → BNodeList Ctx × Nat × Nat × Nat
  | .nil, _ => (.nil, 0, 0, 0)
  | .cons b rest, c =>
      let p := tick b c
      let r := parGo rest c
      match p.2 with
      | .success => (.cons p.1 r.1, r.2.1 + 1, r.2.2.1, r.2.2.2)
      | .failure => (.cons p.1 r.1, r.2.1, r.2.2.1 + 1, r.2.2.2)
      | .running => (.cons p.1 r.1, r.2.1, r.2.2.1, r.2.2.2 + 1)
end

mutual
/--
Embedding of the reset methods. BehaviorNode.reset sets status to FAILURE;
leaves inherit it unchanged. The composite overrides additionally zero the
cursor (Sequence and Selector) and recursively reset every child.
-/
def reset {Ctx : Type} : BNode Ctx → BNode Ctx
  | .action n _ a => .action n .failure a
  | .condition n _ p => .condition n .failure p
  | .seqNode n _ cs _ => .seqNode n .failure (resetList cs) 0
  | .selNode n _ cs _ => .selNode n .failure (resetList cs) 0
  | .parNode n _ cs th => .parNode n .failure (resetList cs) th

/-- Reset applied to each child in order (the for loops in the reset overrides). -/
def resetList {Ctx : Type} : BNodeList Ctx → BNodeList Ctx
  | .nil => .nil
  | .cons b rest => .cons (reset b) (resetList rest)
end

mutual
/--
Checker for the fully-reset condition the spec describes: every node in the
subtree has status FAILURE and every Sequence or Selector cursor is 0.
-/
def fullyReset {Ctx : Type} : BNode Ctx → Bool
  | .action _ st _ => st == .failure
  | .condition _ st _ => st == .failure
  | .seqNode _ st cs k => st == .failure && k == 0 && fullyResetList cs
  | .selNode _ st cs k => st == .failure && k == 0 && fullyResetList cs
  | .parNode _ st cs _ => st == .failure && fullyResetList cs

/-- The fully-reset condition on every node of a children list. -/
def fullyResetList {Ctx : Type} : BNodeList Ctx → Bool
  | .nil => true
  | .cons b rest => fullyReset b && fullyResetList rest
end

/-- Bounding box [x1, y1, x2, y2] of a detection. Numeric values are modelled
as rationals. -/
structure BBox where
  x1 : ℚ
  y1 : ℚ
  x2 : ℚ
  y2 : ℚ
deriving DecidableEq, Repr

/-- Detection record consumed by the decision engine: class name, confidence,
bounding box and center point. -/
structure Detection where
  class_name : String
  confidence : ℚ
  bbox : BBox
  center_x : ℚ
  center_y : ℚ
deriving DecidableEq, Repr

/-- GameState from decision_engine.py. -/
inductive GameState where
  | exploring
  | gathering
  | building
  | combat
  | fleeing
  | looting
  | crafting
  | idle
deriving DecidableEq, Repr

/-- Priority levels for decisions. -/
inductive Priority where
  | critical
  | high
  | medium
  | low
  | minimal
deriving DecidableEq, Repr

/-- Numeric value of each priority level (CRITICAL = 5 down to MINIMAL = 1). -/
def Priority.value : Priority → Nat
  | .critical => 5
  | .high => 4
  | .medium => 3
  | .low => 2
  | .minimal => 1

/-- Context payload attached to a Decision; one shape per construction site in
make_decision (a dict literal in the Python). -/
inductive DecisionContext where
  | healthCtx (health : ℚ)
  | threatCtx (threat : Detection)
  | hungerCtx (hunger : ℚ)
  | resourceCtx (resource : Option Detection)
  | goalCtx (goal : String)
deriving DecidableEq, Repr

/-- Decision value: action tag, priority and context. -/
structure Decision where
  action : String
  priority : Priority
  context : DecisionContext
deriving DecidableEq, Repr

/-- Perception payload handed to update_game_state: the detections list plus
the optional health and hunger keys (absent key = none). -/
structure VisionData where
  detections : List Detection
  health : Option ℚ
  hunger : Option ℚ
deriving DecidableEq, Repr

/-- Mutable fields of the DecisionEngine object. The config dict is stored by
the constructor but never read by any method, so it is not modelled. -/
structure DecisionEngine where
  current_state : GameState
  health : ℚ
  hunger : ℚ
  inventory : List Unit
  nearby_threats : List Detection
  nearby_resources : List Detection
deriving DecidableEq, Repr

namespace DecisionEngine

/-- Engine state built by the constructor (decision_engine.py lines 55-68). -/
def init : DecisionEngine :=
  { current_state := .idle
    health := 100
    hunger := 100
    inventory := []
    nearby_threats := []
    nearby_resources := [] }

/-- Class names classified as threats in update_game_state. -/
def threat_classes : List String := ["player", "bear", "wolf", "scientist"]

/-- Class names classified as resources in update_game_state. -/
def resource_classes : List String := ["tree", "stone", "ore", "hemp", "crate"]

/-- Embedding of update_game_state (lines 70-93): overwrite nearby_threats and
nearby_resources with the matching detections of this frame, and overwrite
health and hunger only when the corresponding key is present. -/
def update_game_state (e : DecisionEngine) (vision_data : VisionData) : DecisionEngine :=
  { e with
    nearby_threats :=
      vision_data.detections.filter (fun d => threat_classes.contains d.class_name)
    nearby_resources :=
      vision_data.detections.filter (fun d => resource_classes.contains d.class_name)
    health := vision_data.health.getD e.health
    hunger := vision_data.hunger.getD e.hunger }

/-- Resource class priority order used by _select_best_resource (line 195). -/
def priority_order : List String := ["ore", "stone", "tree", "hemp", "crate"]

/-- The nested for loops of _select_best_resource (lines 197-200): for each
class in priority order, return the first resource of that class. -/
def selectLoop (resources : List Detection) : List String → Option Detection
  | [] => none
  | t :: ts =>
      match resources.find? (fun r => r.class_name == t) with
      | some r => some r
      | none => selectLoop resources ts

/-- Embedding of _select_best_resource (lines 184-202): none when the resource
list is empty; otherwise the first resource matching the priority order, and
failing that, the first resource in the list. -/
def select_best_resource (e : DecisionEngine) : Option Detection :=
  match e.nearby_resources with
  | [] => none
  | r0 :: _ =>
      match selectLoop e.nearby_resources priority_order with
      | some r => some r
      | none => some r0

/-- Embedding of make_decision (lines 95-155): the fixed-order rule cascade. -/
def make_decision (e : DecisionEngine) : Decision :=
  if e.health < 20 then
    ⟨"heal", .critical, .healthCtx e.health⟩
  else
    match e.nearby_threats with
    | threat :: _ =>
        if e.health < 50 then ⟨"flee", .critical, .threatCtx threat⟩
        else ⟨"combat", .high, .threatCtx threat⟩
    | [] =>
        if e.hunger < 30 then ⟨"find_food", .high, .hungerCtx e.hunger⟩
        else if e.nearby_resources ≠ [] then
          ⟨"gather_resource", .medium, .resourceCtx (select_best_resource e)⟩
        else if e.inventory.length < 5 then
          ⟨"explore", .low, .goalCtx "find_resources"⟩
        else
          ⟨"explore", .minimal, .goalCtx "general_exploration"⟩

/-- Threat ratings table of evaluate_threat_level (lines 167-173), as a total
lookup with the default 0.5 of dict.get. -/
def threat_ratings (class_name : String) : ℚ :=
  if class_name = "player" then 9/10
  else if class_name = "bear" then 95/100
  else if class_name = "wolf" then 7/10
  else if class_name = "scientist" then 85/100
  else if class_name = "boar" then 3/10
  else 1/2

/-- Embedding of evaluate_threat_level (lines 157-182). -/
def evaluate_threat_level (threat : Detection) : ℚ :=
  let base_threat := threat_ratings threat.class_name
  let size := (threat.bbox.x2 - threat.bbox.x1) * (threat.bbox.y2 - threat.bbox.y1)
  let distance_factor := min 1 (size / 10000)
  min 1 (base_threat * (1 + distance_factor))

/-- Embedding of should_engage_combat (lines 204-225). -/
def should_engage_combat (e : DecisionEngine) (threat : Detection) : Bool :=
  let threat_level := evaluate_threat_level threat
  if e.health < 40 then false
  else if 8/10 < threat_level ∧ e.health < 70 then false
  else decide (60 < e.health ∧ threat_level < 7/10)

/-- Embedding of calculate_flee_direction (lines 227-243): flee right when the
threat center x is left of the hardcoded 960 half-width, else left. -/
def calculate_flee_direction (threat : Detection) : String :=
  if threat.center_x < 960 then "right" else "left"

/-- Embedding of set_state (lines 245-252). -/
def set_state (e : DecisionEngine) (state : GameState) : DecisionEngine :=
  { e with current_state := state }

/-- Embedding of get_state (lines 254-256). -/
def get_state (e : DecisionEngine) : GameState :=
  e.current_state

end DecisionEngine

/-
Scripted children: to quantify over every possible sequence of child
statuses, a child is modelled as an ActionNode whose injected action
returns a fixed status. Ticking such a child yields exactly its script.
-/

/-- ActionNode whose action constantly returns s, in its initial state. -/
def stub (Ctx : Type) (s : NodeStatus) : BNode Ctx :=
  .action "child" .failure (fun _ => s)

/-- Children list scripted by a list of statuses. -/
def scriptedL (Ctx : Type) : List NodeStatus → BNodeList Ctx
  | [] => .nil
  | s :: ss => .cons (stub Ctx s) (scriptedL Ctx ss)

/-- A scripted child after it has been ticked once: its stored status now
equals its script. -/
def tickedStub (Ctx : Type) (s : NodeStatus) : BNode Ctx :=
  .action "child" s (fun _ => s)

/-- Children list in which every scripted child has been ticked. -/
def tickedScriptedL (Ctx : Type) : List NodeStatus → BNodeList Ctx
  | [] => .nil
  | s :: ss => .cons (tickedStub Ctx s) (tickedScriptedL Ctx ss)

/-- Spec-side Sequence outcome: the first child status that is not SUCCESS
decides the tick (first match wins); SUCCESS when all children succeed. -/
def seqStatusSpec : List NodeStatus → NodeStatus
  | [] => .success
  | s :: rest => if s = .success then seqStatusSpec rest else s

/-- Index of the first status that is not SUCCESS (list length when every
status is SUCCESS; only meaningful when a non-success entry exists). -/
def seqHaltIdx : List NodeStatus → Nat
  | [] => 0
  | s :: rest => if s = .success then seqHaltIdx rest + 1 else 0

/-- Spec-side Sequence cursor after a tick that started at cur: parked at the
running child when the outcome is RUNNING, reset to 0 otherwise. The list
argument is the statuses of the children from cur onward. -/
def seqCursorSpec (cur : Nat) (l : List NodeStatus) : Nat :=
  match seqStatusSpec l with
  | .running => cur + seqHaltIdx l
  | _ => 0

/-- Spec-side Selector outcome: the first child status that is not FAILURE
decides the tick; FAILURE when all children fail. -/
def selStatusSpec : List NodeStatus → NodeStatus
  | [] => .failure
  | s :: rest => if s = .failure then selStatusSpec rest else s

/-- Index of the first status that is not FAILURE (list length when every
status is FAILURE; only meaningful when a non-failure entry exists). -/
def selHaltIdx : List NodeStatus → Nat
  | [] => 0
  | s :: rest => if s = .failure then selHaltIdx rest + 1 else 0

/-- Spec-side Selector cursor after a tick that started at cur: parked at the
running child when the outcome is RUNNING, reset to 0 otherwise. -/
def selCursorSpec (cur : Nat) (l : List NodeStatus) : Nat :=
  match selStatusSpec l with
  | .running => cur + selHaltIdx l
  | _ => 0

namespace DecisionEngine

/-- Claim-side best resource: scanning the classes in the fixed order
ore, stone, tree, hemp, crate, the first resource in the list whose class
matches; falling back to the first resource when none match. -/
def bestResourceSpec (resources : List Detection) : Option Detection :=
  match (["ore", "stone", "tree", "hemp", "crate"].filterMap
      (fun t => resources.find? (fun r => r.class_name == t))).head? with
  | some r => some r
  | none => resources.head?

/-- Claim-side restatement of the make_decision cascade: the six rules in
their fixed order, first match winning, with the claimed action, priority
and context of each. -/
def make_decision_spec (e : DecisionEngine) : Decision :=
  if e.health < 20 then
    ⟨"heal", .critical, .healthCtx e.health⟩
  else if h : e.nearby_threats = [] then
    (if e.hunger < 30 then
      ⟨"find_food", .high, .hungerCtx e.hunger⟩
    else if e.nearby_resources = [] then
      (if e.inventory.length < 5 then
        ⟨"explore", .low, .goalCtx "find_resources"⟩
      else
        ⟨"explore", .minimal, .goalCtx "general_exploration"⟩)
    else
      ⟨"gather_resource", .medium, .resourceCtx (bestResourceSpec e.nearby_resources)⟩)
  else
    (if e.health < 50 then
      ⟨"flee", .critical, .threatCtx (e.nearby_threats.head h)⟩
    else
      ⟨"combat", .high, .threatCtx (e.nearby_threats.head h)⟩)

/-- Engine states reachable through the public interface: the constructed
state, closed under update_game_state and set_state — the only operations
that produce a new engine state (the remaining ones are read-only). -/
inductive Reachable : DecisionEngine → Prop where
  | init : Reachable DecisionEngine.init
  | update (e : DecisionEngine) (v : VisionData) :
      Reachable e → Reachable (update_game_state e v)
  | set (e : DecisionEngine) (s : GameState) :
      Reachable e → Reachable (set_state e s)

end DecisionEngine

theorem seqGo_scripted {Ctx : Type} (c : Ctx) :
    ∀ (ss : List NodeStatus) (cur : Nat),
    (seqGo (scriptedL Ctx ss) cur c).2 =
      (seqCursorSpec cur (ss.drop cur), seqStatusSpec (ss.drop cur))
  | [], cur => by
      simp [scriptedL, seqGo, seqCursorSpec, seqStatusSpec]
  | s :: rest, 0 => by
      have ih := seqGo_scripted c rest 0
      simp only [List.drop_zero] at ih
      cases s with
      | success =>
          cases h : seqStatusSpec rest with
          | running =>
              simp [scriptedL, seqGo, stub, tick, ih, seqCursorSpec,
                seqStatusSpec, h, seqHaltIdx]
          | success =>
              simp [scriptedL, seqGo, stub, tick, ih, seqCursorSpec,
                seqStatusSpec, h]
          | failure =>
              simp [scriptedL, seqGo, stub, tick, ih, seqCursorSpec,
                seqStatusSpec, h]
      | failure =>
          simp [scriptedL, seqGo, stub, tick, seqCursorSpec, seqStatusSpec]
      | running =>
          simp [scriptedL, seqGo, stub, tick, seqCursorSpec, seqStatusSpec,
            seqHaltIdx]
  | s :: rest, k + 1 => by
      have ih := seqGo_scripted c rest k
      cases h : seqStatusSpec (rest.drop k) with
      | running =>
          simp [scriptedL, seqGo, ih, seqCursorSpec, h]
          omega
      | success =>
          simp [scriptedL, seqGo, ih, seqCursorSpec, h]
      | failure =>
          simp [scriptedL, seqGo, ih, seqCursorSpec, h]

theorem selGo_scripted {Ctx : Type} (c : Ctx) :
    ∀ (ss : List NodeStatus) (cur : Nat),
    (selGo (scriptedL Ctx ss) cur c).2 =
      (selCursorSpec cur (ss.drop cur), selStatusSpec (ss.drop cur))
  | [], cur => by
      simp [scriptedL, selGo, selCursorSpec, selStatusSpec]
  | s :: rest, 0 => by
      have ih := selGo_scripted c rest 0
      simp only [List.drop_zero] at ih
      cases s with
      | failure =>
          cases h : selStatusSpec rest with
          | running =>
              simp [scriptedL, selGo, stub, tick, ih, selCursorSpec,
                selStatusSpec, h, selHaltIdx]
          | success =>
              simp [scriptedL, selGo, stub, tick, ih, selCursorSpec,
                selStatusSpec, h]
          | failure =>
              simp [scriptedL, selGo, stub, tick, ih, selCursorSpec,
                selStatusSpec, h]
      | success =>
          simp [scriptedL, selGo, stub, tick, selCursorSpec, selStatusSpec]
      | running =>
          simp [scriptedL, selGo, stub, tick, selCursorSpec, selStatusSpec,
            selHaltIdx]
  | s :: rest, k + 1 => by
      have ih := selGo_scripted c rest k
      cases h : selStatusSpec (rest.drop k) with
      | running =>
          simp [scriptedL, selGo, ih, selCursorSpec, h]
          omega
      | success =>
          simp [scriptedL, selGo, ih, selCursorSpec, h]
      | failure =>
          simp [scriptedL, selGo, ih, selCursorSpec, h]

theorem parGo_scripted {Ctx : Type} (c : Ctx) :
    ∀ (ss : List NodeStatus),
    parGo (scriptedL Ctx ss) c =
      (tickedScriptedL Ctx ss,
       ss.count NodeStatus.success, ss.count NodeStatus.failure,
       ss.count NodeStatus.running)
  | [] => by
      simp [scriptedL, parGo, tickedScriptedL]
  | s :: rest => by
      have ih := parGo_scripted c rest
      cases s <;>
        simp [scriptedL, parGo, stub, tick, ih, tickedScriptedL, tickedStub,
          List.count_cons]

theorem scriptedL_length {Ctx : Type} :
    ∀ (ss : List NodeStatus), (scriptedL Ctx ss).length = ss.length
  | [] => rfl
  | _ :: rest => by simp [scriptedL, BNodeList.length, scriptedL_length rest]

mutual
theorem fullyReset_reset_aux {Ctx : Type} :
    ∀ (t : BNode Ctx), fullyReset (reset t) = true
  | .action n st a => by simp [reset, fullyReset]
  | .condition n st p => by simp [reset, fullyReset]
  | .seqNode n st cs k => by
      simp [reset, fullyReset, fullyResetList_resetList_aux cs]
  | .selNode n st cs k => by
      simp [reset, fullyReset, fullyResetList_resetList_aux cs]
  | .parNode n st cs th => by
      simp [reset, fullyReset, fullyResetList_resetList_aux cs]
theorem fullyResetList_resetList_aux {Ctx : Type} :
    ∀ (l : BNodeList Ctx), fullyResetList (resetList l) = true
  | .nil => rfl
  | .cons b rest => by
      simp [resetList, fullyResetList, fullyReset_reset_aux b,
        fullyResetList_resetList_aux rest]
end

/-- C2: Sequence tick evaluates children from the stored cursor forward; the
first non-success child decides the tick: Failure resets the cursor to 0 and
returns Failure, Running parks the cursor at that child and returns Running,
and if all children from the cursor on succeed the cursor resets to 0 and
the node returns Success. In particular, children scripted
[Success, Running, Success] give Running with the cursor parked at index 1,
and a later tick from cursor 1 with child 1 now succeeding gives Success
with the cursor back at 0. -/
theorem sequence_tick_cascade (Ctx : Type) (c : Ctx) (nm : String)
    (st : NodeStatus) (ss : List NodeStatus) (cur : Nat) :
    ((tick (BNode.seqNode nm st (scriptedL Ctx ss) cur) c).2
        = seqStatusSpec (ss.drop cur)
      ∧ statusOf (tick (BNode.seqNode nm st (scriptedL Ctx ss) cur) c).1
        = seqStatusSpec (ss.drop cur)
      ∧ cursorOf (tick (BNode.seqNode nm st (scriptedL Ctx ss) cur) c).1
        = seqCursorSpec cur (ss.drop cur))
    ∧ (tick (BNode.seqNode "seq" NodeStatus.failure
          (scriptedL Unit [NodeStatus.success, NodeStatus.running,
            NodeStatus.success]) 0) ()).2 = NodeStatus.running
    ∧ cursorOf (tick (BNode.seqNode "seq" NodeStatus.failure
          (scriptedL Unit [NodeStatus.success, NodeStatus.running,
            NodeStatus.success]) 0) ()).1 = 1
    ∧ (tick (BNode.seqNode "seq" NodeStatus.running
          (scriptedL Unit [NodeStatus.success, NodeStatus.success,
            NodeStatus.success]) 1) ()).2 = NodeStatus.success
    ∧ cursorOf (tick (BNode.seqNode "seq" NodeStatus.running
          (scriptedL Unit [NodeStatus.success, NodeStatus.success,
            NodeStatus.success]) 1) ()).1 = 0 := by
  have h := seqGo_scripted c ss cur
  refine ⟨⟨?_, ?_, ?_⟩, by decide, by decide, by decide, by decide⟩ <;>
    simp [tick, statusOf, cursorOf, h]

/-- C3: Selector tick is symmetric to Sequence with success and failure
swapped; the first non-failure child decides the tick: Success resets the
cursor to 0 and returns Success, Running parks the cursor at that child and
returns Running, and if all children from the cursor on fail the cursor
resets to 0 and the node returns Failure. -/
theorem selector_tick_cascade (Ctx : Type) (c : Ctx) (nm : String)
    (st : NodeStatus) (ss : List NodeStatus) (cur : Nat) :
    (tick (BNode.selNode nm st (scriptedL Ctx ss) cur) c).2
        = selStatusSpec (ss.drop cur)
      ∧ statusOf (tick (BNode.selNode nm st (scriptedL Ctx ss) cur) c).1
        = selStatusSpec (ss.drop cur)
      ∧ cursorOf (tick (BNode.selNode nm st (scriptedL Ctx ss) cur) c).1
        = selCursorSpec cur (ss.drop cur) := by
  have h := selGo_scripted c ss cur
  refine ⟨?_, ?_, ?_⟩ <;> simp [tick, statusOf, cursorOf, h]

/-- C4: Parallel tick ticks every child unconditionally (each scripted child
ends the tick with its stored status overwritten by its script) and decides
in order from the tallies: Success when success_count reaches the threshold,
else Failure when even all non-failed children could not reach it, else
Running. With 3 children and threshold 2, [Success, Success, Running] gives
Success, [Failure, Failure, Running] gives Failure, and
[Success, Running, Running] gives Running. -/
theorem parallel_tick_tally (Ctx : Type) (c : Ctx) (nm : String)
    (st : NodeStatus) (ss : List NodeStatus) (th : Int) :
    (childrenOf (tick (BNode.parNode nm st (scriptedL Ctx ss) th) c).1
        = tickedScriptedL Ctx ss
      ∧ (tick (BNode.parNode nm st (scriptedL Ctx ss) th) c).2
        = (if th ≤ (ss.count NodeStatus.success : Int) then NodeStatus.success
           else if ((ss.length : Int) - (ss.count NodeStatus.failure : Int)) < th
           then NodeStatus.failure
           else NodeStatus.running))
    ∧ (tick (BNode.parNode "par" NodeStatus.failure
          (scriptedL Unit [NodeStatus.success, NodeStatus.success,
            NodeStatus.running]) 2) ()).2 = NodeStatus.success
    ∧ (tick (BNode.parNode "par" NodeStatus.failure
          (scriptedL Unit [NodeStatus.failure, NodeStatus.failure,
            NodeStatus.running]) 2) ()).2 = NodeStatus.failure
    ∧ (tick (BNode.parNode "par" NodeStatus.failure
          (scriptedL Unit [NodeStatus.success, NodeStatus.running,
            NodeStatus.running]) 2) ()).2 = NodeStatus.running := by
  have h := parGo_scripted c ss
  refine ⟨⟨?_, ?_⟩, by decide, by decide, by decide⟩ <;>
    simp [tick, childrenOf, h, scriptedL_length]

/-- C6: reset on any node sets its status to Failure, zeroes its cursor where
it has one, and recursively resets every descendant, so that afterwards
every node in the subtree has status Failure and every cursor is 0. -/
theorem reset_fully_resets (Ctx : Type) (t : BNode Ctx) :
    statusOf (reset t) = NodeStatus.failure
      ∧ cursorOf (reset t) = 0
      ∧ fullyReset (reset t) = true := by
  refine ⟨?_, ?_, fullyReset_reset_aux t⟩ <;> cases t <;> rfl

/-- C9: ticking a composite with an empty children list returns immediately:
an empty Sequence yields Success with cursor 0, an empty Selector yields
Failure with cursor 0, and an empty Parallel yields Failure when the success
threshold is at least 1 and Success when it is at most 0. Construction of a
zero-children composite is total, so no error can be raised. -/
theorem empty_composite_tick (Ctx : Type) (c : Ctx) (nm : String)
    (st : NodeStatus) (cur : Nat) (th : Int) :
    tick (BNode.seqNode nm st BNodeList.nil cur) c
        = (BNode.seqNode nm NodeStatus.success BNodeList.nil 0,
           NodeStatus.success)
      ∧ tick (BNode.selNode nm st BNodeList.nil cur) c
        = (BNode.selNode nm NodeStatus.failure BNodeList.nil 0,
           NodeStatus.failure)
      ∧ (tick (BNode.parNode nm st BNodeList.nil th) c).2
        = (if th ≤ 0 then NodeStatus.success else NodeStatus.failure) := by
  refine ⟨by simp [tick, seqGo], by simp [tick, selGo], ?_⟩
  by_cases h : th ≤ 0
  · simp [tick, parGo, BNodeList.length, h]
  · have h2 : (0 : Int) < th := by omega
    simp [tick, parGo, BNodeList.length, h, h2]

namespace DecisionEngine

theorem selectLoop_eq (resources : List Detection) :
    ∀ (ts : List String),
    selectLoop resources ts
      = (ts.filterMap (fun t => resources.find? (fun r => r.class_name == t))).head?
  | [] => rfl
  | t :: ts => by
      cases h : resources.find? (fun r => r.class_name == t) with
      | some r => simp [selectLoop, h]
      | none => simp [selectLoop, h, selectLoop_eq resources ts]

theorem select_best_resource_eq (e : DecisionEngine) :
    select_best_resource e = bestResourceSpec e.nearby_resources := by
  unfold select_best_resource bestResourceSpec
  cases hr : e.nearby_resources with
  | nil => simp
  | cons r0 rest =>
      rw [selectLoop_eq, show priority_order = ["ore", "stone", "tree", "hemp", "crate"] from rfl]
      cases hh : (["ore", "stone", "tree", "hemp", "crate"].filterMap
          (fun t => (r0 :: rest).find? (fun r => r.class_name == t))).head? with
      | some r => simp
      | none => simp

/-- C1: make_decision evaluates its rules in a fixed order with first match
winning: health below 20 yields heal at Critical with the health in context
even when threats are present; otherwise a non-empty threat list uses its
first entry and yields flee at Critical when health is below 50, else combat
at High; otherwise hunger below 30 yields find_food at High; otherwise a
non-empty resource list yields gather_resource at Medium with the best
resource chosen by the class priority order ore, stone, tree, hemp, crate,
falling back to the first resource; otherwise fewer than 5 inventory items
yields explore at Low with goal find_resources; otherwise explore at Minimal
with goal general_exploration. -/
theorem make_decision_cascade (e : DecisionEngine) :
    make_decision e = make_decision_spec e := by
  unfold make_decision make_decision_spec
  by_cases h20 : e.health < 20
  · simp [h20]
  · cases ht : e.nearby_threats with
    | cons t ts => simp [h20, ht]
    | nil =>
        by_cases h30 : e.hunger < 30
        · simp [h20, ht, h30]
        · cases hr : e.nearby_resources with
          | nil => simp [h20, ht, h30, hr]
          | cons r0 rest =>
              have hb := select_best_resource_eq e
              rw [hr] at hb
              simp [h20, ht, h30, hr, hb]

/-- C5: update_game_state partitions the detections by class-name membership
into nearby_threats and nearby_resources, dropping unmatched classes; both
lists are fully overwritten from this frame only (independent of the
previous engine state) and keep the received order; health and hunger are
overwritten exactly when the corresponding key is present; inventory and
current_state never change. -/
theorem update_game_state_frame (e e2 : DecisionEngine) (v : VisionData) :
    (update_game_state e v).nearby_threats
        = v.detections.filter
            (fun d => decide (d.class_name
                ∈ (["player", "bear", "wolf", "scientist"] : List String)))
      ∧ (update_game_state e v).nearby_resources
        = v.detections.filter
            (fun d => decide (d.class_name
                ∈ (["tree", "stone", "ore", "hemp", "crate"] : List String)))
      ∧ (update_game_state e v).nearby_threats
        = (update_game_state e2 v).nearby_threats
      ∧ (update_game_state e v).nearby_resources
        = (update_game_state e2 v).nearby_resources
      ∧ (v.health = none → (update_game_state e v).health = e.health)
      ∧ (∀ q, v.health = some q → (update_game_state e v).health = q)
      ∧ (v.hunger = none → (update_game_state e v).hunger = e.hunger)
      ∧ (∀ q, v.hunger = some q → (update_game_state e v).hunger = q)
      ∧ (update_game_state e v).inventory = e.inventory
      ∧ (update_game_state e v).current_state = e.current_state := by
  refine ⟨?_, ?_, rfl, rfl, ?_, ?_, ?_, ?_, rfl, rfl⟩
  · simp [update_game_state, threat_classes, List.contains, List.elem_eq_mem]
  · simp [update_game_state, resource_classes, List.contains, List.elem_eq_mem]
  · intro h; simp [update_game_state, h]
  · intro q h; simp [update_game_state, h]
  · intro h; simp [update_game_state, h]
  · intro q h; simp [update_game_state, h]

/-- Witness for C5 at a concrete engine and perception payload: a missing
health key keeps the previous health, a present hunger key overwrites it. -/
theorem update_game_state_frame_witness :
    (update_game_state DecisionEngine.init
        ⟨[⟨"player", 9/10, ⟨0, 0, 10, 10⟩, 5, 5⟩], none, some 25⟩).health = 100
      ∧ (update_game_state DecisionEngine.init
        ⟨[⟨"player", 9/10, ⟨0, 0, 10, 10⟩, 5, 5⟩], none, some 25⟩).hunger = 25 := by
  have h := update_game_state_frame DecisionEngine.init DecisionEngine.init
      ⟨[⟨"player", 9/10, ⟨0, 0, 10, 10⟩, 5, 5⟩], none, some 25⟩
  exact ⟨h.2.2.2.2.1 rfl, h.2.2.2.2.2.2.2.1 25 rfl⟩

/-- C7: evaluate_threat_level equals min(1, base * (1 + distance_factor))
with base looked up from the fixed ratings table (default 0.5), size the
bounding box width times height, and distance_factor = min(1, size/10000);
for a bounding box of non-negative width and height the result lies in
[0, 1]. -/
theorem evaluate_threat_level_spec (t : Detection) :
    evaluate_threat_level t
        = min 1 (threat_ratings t.class_name
            * (1 + min 1 ((t.bbox.x2 - t.bbox.x1) * (t.bbox.y2 - t.bbox.y1)
                / 10000)))
      ∧ threat_ratings "player" = 9/10
      ∧ threat_ratings "bear" = 95/100
      ∧ threat_ratings "wolf" = 7/10
      ∧ threat_ratings "scientist" = 85/100
      ∧ threat_ratings "boar" = 3/10
      ∧ (t.class_name
            ∉ (["player", "bear", "wolf", "scientist", "boar"] : List String)
          → threat_ratings t.class_name = 1/2)
      ∧ (t.bbox.x1 ≤ t.bbox.x2 → t.bbox.y1 ≤ t.bbox.y2
          → 0 ≤ evaluate_threat_level t ∧ evaluate_threat_level t ≤ 1) := by
  refine ⟨rfl, by simp [threat_ratings], by simp [threat_ratings],
    by simp [threat_ratings], by simp [threat_ratings],
    by simp [threat_ratings], ?_, ?_⟩
  · intro h
    simp only [List.mem_cons, List.not_mem_nil, or_false, not_or] at h
    obtain ⟨h1, h2, h3, h4, h5⟩ := h
    simp [threat_ratings, h1, h2, h3, h4, h5]
  · intro hx hy
    have hsize : (0:ℚ) ≤ (t.bbox.x2 - t.bbox.x1) * (t.bbox.y2 - t.bbox.y1) :=
      mul_nonneg (sub_nonneg.2 hx) (sub_nonneg.2 hy)
    have hdf0 : (0:ℚ)
        ≤ min 1 ((t.bbox.x2 - t.bbox.x1) * (t.bbox.y2 - t.bbox.y1) / 10000) :=
      le_min (by norm_num) (div_nonneg hsize (by norm_num))
    have hbase : (0:ℚ) < threat_ratings t.class_name := by
      unfold threat_ratings
      split_ifs <;> norm_num
    constructor
    · simp only [evaluate_threat_level]
      exact le_min (by norm_num) (mul_nonneg hbase.le (by linarith))
    · simp only [evaluate_threat_level]
      exact min_le_left _ _

/-- Witness for C7 at the unlisted class zombie with a 100 by 100 box. -/
theorem evaluate_threat_level_spec_witness :
    threat_ratings "zombie" = 1/2
      ∧ (0 ≤ evaluate_threat_level ⟨"zombie", 1/2, ⟨0, 0, 100, 100⟩, 50, 50⟩
          ∧ evaluate_threat_level ⟨"zombie", 1/2, ⟨0, 0, 100, 100⟩, 50, 50⟩
            ≤ 1) := by
  have h := evaluate_threat_level_spec ⟨"zombie", 1/2, ⟨0, 0, 100, 100⟩, 50, 50⟩
  exact ⟨h.2.2.2.2.2.2.1 (by simp),
    h.2.2.2.2.2.2.2 (by norm_num) (by norm_num)⟩

/-- C8: should_engage_combat returns false whenever health is below 40, false
whenever the threat level is above 0.8 and health below 70, and true exactly
when health is above 60 and the threat level below 0.7; every remaining case
is false. -/
theorem should_engage_combat_spec (e : DecisionEngine) (t : Detection) :
    (e.health < 40 → should_engage_combat e t = false)
      ∧ (8/10 < evaluate_threat_level t ∧ e.health < 70 →
          should_engage_combat e t = false)
      ∧ (should_engage_combat e t = true ↔
          60 < e.health ∧ evaluate_threat_level t < 7/10) := by
  unfold should_engage_combat
  refine ⟨?_, ?_, ?_⟩
  · intro h
    simp [h]
  · intro h
    by_cases h40 : e.health < 40
    · simp [h40]
    · simp [h40, h]
  · by_cases h40 : e.health < 40
    · simp only [h40, if_true]
      constructor
      · intro hfalse
        exact absurd hfalse (by simp)
      · rintro ⟨h60, _⟩
        linarith
    · by_cases hmid : 8/10 < evaluate_threat_level t ∧ e.health < 70
      · simp only [h40, if_false, hmid, if_true]
        constructor
        · intro hfalse
          exact absurd hfalse (by simp)
        · rintro ⟨h60, htl⟩
          have := hmid.1
          linarith
      · simp [h40, hmid]

/-- Witness for C8: a healthy engine engages a small boar; a wounded one
does not. -/
theorem should_engage_combat_spec_witness :
    should_engage_combat ⟨GameState.idle, 80, 100, [], [], []⟩
        ⟨"boar", 1/2, ⟨0, 0, 10, 10⟩, 5, 5⟩ = true
      ∧ should_engage_combat ⟨GameState.idle, 30, 100, [], [], []⟩
        ⟨"boar", 1/2, ⟨0, 0, 10, 10⟩, 5, 5⟩ = false :=
  ⟨(should_engage_combat_spec ⟨GameState.idle, 80, 100, [], [], []⟩
      ⟨"boar", 1/2, ⟨0, 0, 10, 10⟩, 5, 5⟩).2.2.mpr
      ⟨by norm_num,
       by
         simp only [evaluate_threat_level, threat_ratings, String.reduceEq,
           if_false]
         norm_num [min_def]⟩,
   (should_engage_combat_spec ⟨GameState.idle, 30, 100, [], [], []⟩
      ⟨"boar", 1/2, ⟨0, 0, 10, 10⟩, 5, 5⟩).1 (by norm_num)⟩

/-- C10: no engine operation ever modifies the inventory, which the
constructor builds empty, so every reachable state has an empty inventory
and inventory length below 5; consequently, when health is at least 20, no
threats are near, hunger is at least 30 and no resources are near,
make_decision returns explore at Low with goal find_resources, and the
Minimal general_exploration decision is unreachable through the public
interface. -/
theorem reachable_inventory_invariant (e : DecisionEngine) (h : Reachable e) :
    (∀ (e0 : DecisionEngine) (v : VisionData),
        (update_game_state e0 v).inventory = e0.inventory)
      ∧ (∀ (e0 : DecisionEngine) (s : GameState),
          (set_state e0 s).inventory = e0.inventory)
      ∧ e.inventory = []
      ∧ e.inventory.length < 5
      ∧ (20 ≤ e.health → e.nearby_threats = [] → 30 ≤ e.hunger →
          e.nearby_resources = [] →
          make_decision e
            = ⟨"explore", Priority.low, DecisionContext.goalCtx "find_resources"⟩)
      ∧ make_decision e
          ≠ ⟨"explore", Priority.minimal,
             DecisionContext.goalCtx "general_exploration"⟩ := by
  have hinv : e.inventory = [] := by
    induction h with
    | init => rfl
    | update e0 v _ ih => simpa [update_game_state] using ih
    | set e0 s _ ih => simpa [set_state] using ih
  refine ⟨fun e0 v => rfl, fun e0 s => rfl, hinv, by simp [hinv], ?_, ?_⟩
  · intro h20 hth h30 hr
    have hh : ¬ e.health < 20 := by linarith
    have hg : ¬ e.hunger < 30 := by linarith
    simp [make_decision, hth, hr, hinv, hh, hg]
  · unfold make_decision
    by_cases h20 : e.health < 20
    · simp [h20, Decision.mk.injEq]
    · cases ht : e.nearby_threats with
      | cons t ts =>
          by_cases h50 : e.health < 50
          · simp [h20, ht, h50, Decision.mk.injEq]
          · simp [h20, ht, h50, Decision.mk.injEq]
      | nil =>
          by_cases h30 : e.hunger < 30
          · simp [h20, ht, h30, Decision.mk.injEq]
          · cases hr : e.nearby_resources with
            | cons r rs => simp [h20, ht, h30, hr, Decision.mk.injEq]
            | nil => simp [h20, ht, h30, hr, hinv, Decision.mk.injEq]

/-- Witness for C10 at the constructed engine state. -/
theorem reachable_inventory_invariant_witness :
    DecisionEngine.init.inventory = []
      ∧ make_decision DecisionEngine.init
        = ⟨"explore", Priority.low, DecisionContext.goalCtx "find_resources"⟩ := by
  have h := reachable_inventory_invariant DecisionEngine.init Reachable.init
  exact ⟨h.2.2.1, h.2.2.2.2.1 (by norm_num [init]) rfl (by norm_num [init]) rfl⟩

end DecisionEngine

end RustAI
